import Mathlib

/-!
Verification development for the haproxy-exporter core.

The current core (`core/exporter.go`, the yacr/warp10 variant, and
`core/beamer.go`) is embedded shallowly: the row-scanning `Scrape` becomes a
fold over the list of CSV records (the comment header line is already
skipped by `r.SkipRecords(1)` and therefore not part of the record list),
the per-column sparse value array becomes a function `Nat → String`, and the
sensision output buffer becomes a `String` accumulator.  The older
csv-reader based snapshot of the exporter (the prometheus variant kept in
the same source bundle) is embedded in namespace `Prom` where a claim cites
it.
-/

namespace HX

/-- `rowLength` from the source: only the first 62 columns of a record are
ever stored. -/
def rowLength : Nat := 62

/-- The column-index-to-metric-name table built literally in `NewExporter`
(`e.metrics`).  Indices 0 (pxname), 1 (svname), 32 (type), 45 (hanafail)
and 57 (last_agt) are deliberately absent, matching the commented-out
entries of the Go map literal. -/
def defaultMetrics : List (Nat × String) := [
  (2, "qcur"), (3, "qmax"), (4, "scur"), (5, "smax"), (6, "slim"),
  (7, "stot"), (8, "bin"), (9, "bout"), (10, "dreq"), (11, "dresp"),
  (12, "ereq"), (13, "econ"), (14, "eresp"), (15, "wretr"), (16, "wredis"),
  (17, "status"), (18, "weight"), (19, "act"), (20, "bck"), (21, "chkfail"),
  (22, "chkdown"), (23, "lastchg"), (24, "downtime"), (25, "qlimit"),
  (26, "pid"), (27, "iid"), (28, "sid"), (29, "throttle"), (30, "lbtot"),
  (31, "tracked"),
  (33, "current_session_rate"), (34, "limit_session_rate"),
  (35, "max_session_rate"), (36, "check_status"), (37, "check_code"),
  (38, "check_duration"), (39, "hrsp_1xx"), (40, "hrsp_2xx"),
  (41, "hrsp_3xx"), (42, "hrsp_4xx"), (43, "hrsp_5xx"), (44, "hrsp_other"),
  (46, "req_rate"), (47, "req_rate_max"), (48, "req_tot"), (49, "cli_abrt"),
  (50, "srv_abrt"), (51, "comp_in"), (52, "comp_out"), (53, "comp_byp"),
  (54, "comp_rsp"), (55, "lastsess"), (56, "last_chk"),
  (58, "qtime"), (59, "ctime"), (60, "rtime"), (61, "ttime")]

/-- The allow-list filter applied at the end of `NewExporter`: when the
configured `metrics` list is non-empty, every table entry whose name is not
in the list is deleted from `e.metrics`. -/
def filterMetrics (metrics : List String) (m : List (Nat × String)) :
    List (Nat × String) :=
  if metrics.isEmpty then m else m.filter (fun p => metrics.contains p.2)

/-- Reading `e.metrics[i]` from the Go map: absent keys yield the zero
value `""`. -/
def metricName (m : List (Nat × String)) (i : Nat) : String :=
  match m.find? (fun p => p.1 == i) with
  | some p => p.2
  | none => ""

/-- The slot-allocation condition of `Scrape`: a value slot is allocated for
column `i` unless `e.metrics[i] == "" && i != 0 && i != 1 && i != 32`,
i.e. exactly when the column carries a configured metric or is one of the
three label columns 0 (pxname), 1 (svname), 32 (type). -/
def slotAllocated (m : List (Nat × String)) (i : Nat) : Bool :=
  !(metricName m i == "") || i == 0 || i == 1 || i == 32

/-- The field-scanning loop of `Scrape` applied to one record: field `j` of
the record overwrites slot `j` when `j < rowLength` and the slot is
allocated (`values[i] != nil`); every other slot keeps its previous value.
Slots are never cleared between records. -/
def storeFields (m : List (Nat × String)) (vals : Nat → String)
    (rec : List String) : Nat → String :=
  fun j =>
    if j < rec.length && j < rowLength && slotAllocated m j then rec.getD j ""
    else vals j

/-- The status recoding switch of `Scrape` for column 17. -/
def statusValue (s : String) : String :=
  if s = "UP" ∨ s = "UP 1/3" ∨ s = "UP 2/3" ∨ s = "OPEN" ∨ s = "no check"
    then "1"
  else if s = "DOWN" ∨ s = "DOWN 1/2" ∨ s = "NOLB" ∨ s = "MAINT" then "0"
  else "0"

/-- The object-type recoding switch of `Scrape` for column 32 (`t`). -/
def typeLabel (s : String) : String :=
  if s = "0" then "frontend"
  else if s = "1" then "backend"
  else if s = "2" then "server"
  else if s = "3" then "listen"
  else ""

/-- One emitted warp10/sensision data point, without the per-scrape
timestamp prefix: metric name, static label string, the three row labels
and the (recoded) value. -/
structure Sample where
  name : String
  labels : String
  pxname : String
  svname : String
  typ : String
  value : String
deriving DecidableEq, Repr

/-- The per-metric body of the emission loop of `Scrape`: column `p.1` with
configured name `p.2` emits nothing when the stored field is empty, and
otherwise one `Sample` whose value is recoded through the status switch for
column 17 and whose labels come from slots 0, 1 and 32. -/
def emitField (labels : String) (vals : Nat → String) (p : Nat × String) :
    Option Sample :=
  let valueStr := vals p.1
  if valueStr = "" then none
  else some {
    name := p.2
    labels := labels
    pxname := vals 0
    svname := vals 1
    typ := typeLabel (vals 32)
    value := if p.1 = 17 then statusValue valueStr else valueStr }

/-- The `EndOfRecord` emission loop of `Scrape`: one pass over `e.metrics`
reading the stored slots. -/
def emitRecord (m : List (Nat × String)) (labels : String)
    (vals : Nat → String) : List Sample :=
  m.filterMap (emitField labels vals)

/-- The sensision line written for one sample (`gts` in the source), where
`now` is the `"<micros>// haproxy.stats."` prefix computed once per
scrape. -/
def gtsLine (now : String) (s : Sample) : String :=
  now ++ s.name ++ "\x7b" ++ s.labels ++ "pxname=" ++ s.pxname ++
    ",svname=" ++ s.svname ++ ",type=" ++ s.typ ++ "\x7d " ++ s.value ++ "\n"

/-- The initial sparse value array: every allocated slot starts as the empty
string (`var s string`). -/
def initVals : Nat → String := fun _ => ""

/-- One record step of `Scrape` at the `Sample` level: store the record's
fields, then emit. -/
def scrapeStep (m : List (Nat × String)) (labels : String)
    (acc : (Nat → String) × List Sample) (rec : List String) :
    (Nat → String) × List Sample :=
  let vals := storeFields m acc.1 rec
  (vals, acc.2 ++ emitRecord m labels vals)

/-- All samples produced by one scrape of a record list. -/
def scrapeSamples (m : List (Nat × String)) (labels : String)
    (records : List (List String)) : List Sample :=
  (records.foldl (scrapeStep m labels) (initVals, [])).2

/-- One record step of `Scrape` at the output-buffer level: the lines
emitted for the record are appended to `e.sensision` in loop order. -/
def sensStep (now : String) (m : List (Nat × String)) (labels : String)
    (acc : (Nat → String) × String) (rec : List String) :
    (Nat → String) × String :=
  let vals := storeFields m acc.1 rec
  (vals, acc.2 ++ String.join ((emitRecord m labels vals).map (gtsLine now)))

/-- The full sensision buffer built by one scrape run at timestamp prefix
`now`. -/
def scrapeSensision (now : String) (m : List (Nat × String)) (labels : String)
    (records : List (List String)) : String :=
  (records.foldl (sensStep now m labels) (initVals, "")).2

/-- `Metrics()`: the rendering delivered to readers is the current content
of the published buffer. -/
def metricsOf (sensision : String) : String := sensision

/-- `Scrape()` at the published-state level: the fetch result is either an
error (`none`) or the record list of the body.  The previous buffer is
cleared by `e.clear()` before the error check, so a fetch error leaves the
empty buffer published and returns `false`; otherwise the buffer is rebuilt
from the fetched records and the scrape returns `true`. -/
def scrapeExporter (now : String) (m : List (Nat × String)) (labels : String)
    (fetched : Option (List (List String))) (_prev : String) :
    String × Bool :=
  match fetched with
  | none => ("", false)
  | some records => (scrapeSensision now m labels records, true)

/-- The fetcher variants `NewExporter` can construct (`fetchHTTP`,
`fetchUnix`), plus the direct local-file open that the spec describes for
the file scheme but that the source never builds. -/
inductive FetchKind
  | httpGet
  | unixSocket
  | fileOpen
deriving DecidableEq, Repr

/-- The scheme switch of `NewExporter`: "http", "https" and "file" are all
dispatched to `fetchHTTP` (an `http.Client.Get` on the URI), "unix" to
`fetchUnix`; any other scheme is a constructor error (`none`). -/
def fetchKindOfScheme (scheme : String) : Option FetchKind :=
  if scheme = "http" ∨ scheme = "https" ∨ scheme = "file" then
    some FetchKind.httpGet
  else if scheme = "unix" then some FetchKind.unixSocket
  else none

/-- Modelled from the spec: "For file scheme: open the local path; any
failure is a FetchError."  The fetcher the spec prescribes for file URIs;
no function in the source opens a local path (the Go HTTP client's default
transport serves only http and https). -/
def specFileFetchKind : FetchKind := FetchKind.fileOpen

/-- The scheduler state of `core/beamer.go`: the round-robin cursor `i`,
the three counters `scrapeCounter`, `scrapeSkiped`, `scrapeFailures`, and
the number of occupied slots of the `running` channel. -/
structure BeamerState where
  cursor : Nat
  attempted : Nat
  skipped : Nat
  failed : Nat
  inFlight : Nat
deriving DecidableEq, Repr

/-- One ticker tick of the Beamer loop over `n` exporters with concurrency
ceiling `maxConcurrent`: if `running <- struct{}{}` succeeds (a slot is
free), a scrape is dispatched, `scrapeCounter` increments and the cursor
advances with wrap-around (`i++; if i >= len(exporters) { i = 0 }`);
otherwise the `default` branch increments `scrapeSkiped` and nothing else
changes. -/
def beamerTick (maxConcurrent n : Nat) (st : BeamerState) : BeamerState :=
  if st.inFlight < maxConcurrent then
    { st with
      inFlight := st.inFlight + 1
      attempted := st.attempted + 1
      cursor := if st.cursor + 1 ≥ n then 0 else st.cursor + 1 }
  else { st with skipped := st.skipped + 1 }

/-- Completion of a dispatched scrape goroutine: the slot is released
(`<-running`) and a failed scrape increments `scrapeFailures`. -/
def beamerComplete (success : Bool) (st : BeamerState) : BeamerState :=
  { st with
    inFlight := st.inFlight - 1
    failed := if success then st.failed else st.failed + 1 }

namespace Prom

/-- `minCsvFieldCount` of the csv-reader based `Scrape` snapshot: rows with
fewer fields are discarded as parse failures. -/
def minCsvFieldCount : Nat := 52

/-- Base-10 digit accumulation for the `strconv.ParseInt` model: any
non-digit character aborts the parse. -/
def parseDigits (cs : List Char) : Option Nat :=
  cs.foldl
    (fun acc c =>
      match acc with
      | none => none
      | some n => if c.isDigit then some (n * 10 + (c.toNat - 48)) else none)
    (some 0)

/-- Model of `strconv.ParseInt(s, 10, 64)` as used by `exportCsvFields`: an
optional sign, at least one digit, and the signed 64-bit range check;
every failure (including range errors) is `none`. -/
def parseInt64 (s : String) : Option Int :=
  match s.data with
  | [] => none
  | c :: rest =>
    let signed : Bool × List Char :=
      if c = '-' then (true, rest)
      else if c = '+' then (false, rest)
      else (false, c :: rest)
    match signed.2 with
    | [] => none
    | ds =>
      match parseDigits ds with
      | none => none
      | some n =>
        if signed.1 then
          if n ≤ 2 ^ 63 then some (-(n : Int)) else none
        else if n < 2 ^ 63 then some (n : Int) else none

/-- One `GaugeVec.WithLabelValues(labels...).Set(value)` call recorded by
the csv-based snapshot. -/
structure GaugeSet where
  name : String
  labelValues : List String
  value : Int
deriving DecidableEq, Repr

/-- `exportCsvFields` of the csv-based snapshot: empty fields are skipped;
the status column's switch is followed by an unconditional `value = 0`, so
a non-empty status always sets 0; other columns parse as int64, counting a
parse failure (and skipping the gauge update) on error.  Go indexes
`csvRow[fieldIdx]` directly; out-of-range columns are modelled as the empty
field, which the reader's uniform-field-count check keeps unreachable for
full-width rows. -/
def exportCsvFields (metrics : List (Nat × String)) (csvRow : List String)
    (labelValues : List String) : List GaugeSet × Nat :=
  metrics.foldl
    (fun acc p =>
      let valueStr := csvRow.getD p.1 ""
      if valueStr = "" then acc
      else if p.1 = 17 then
        (acc.1 ++ [⟨p.2, labelValues, 0⟩], acc.2)
      else
        match parseInt64 valueStr with
        | none => (acc.1, acc.2 + 1)
        | some v => (acc.1 ++ [⟨p.2, labelValues, v⟩], acc.2))
    ([], 0)

/-- The loop body of the csv-based `Scrape` for one successfully read row:
empty rows are skipped silently, rows shorter than `minCsvFieldCount`
contribute nothing and one parse failure, and full rows are exported with
label values taken from columns 0 (pxname), 1 (svname) and 32 (type). -/
def scrapeRow (metrics : List (Nat × String)) (row : List String) :
    List GaugeSet × Nat :=
  if row.length = 0 then ([], 0)
  else if row.length < minCsvFieldCount then ([], 1)
  else exportCsvFields metrics row [row.getD 0 "", row.getD 1 "", row.getD 32 ""]

end Prom

/-! Helper lemmas shared by the claim theorems. -/

/-- String concatenation distributes over `String.join`. -/
theorem join_append (a b : List String) :
    String.join (a ++ b) = String.join a ++ String.join b := by
  apply String.ext
  simp

/-- Every sample of one emission pass draws its three row labels from slots
0, 1 and 32 of the value array. -/
theorem emitRecord_labels (m : List (Nat × String)) (labels : String)
    (vals : Nat → String) :
    ∀ s ∈ emitRecord m labels vals,
      s.pxname = vals 0 ∧ s.svname = vals 1 ∧ s.typ = typeLabel (vals 32) := by
  intro s hs
  rcases List.mem_filterMap.mp hs with ⟨p, _, he⟩
  unfold emitField at he
  by_cases h : vals p.1 = ""
  · simp [h] at he
  · simp only [h, if_false, Option.some.injEq] at he
    rw [← he]
    exact ⟨rfl, rfl, rfl⟩

/-- The output-buffer fold and the sample fold of `Scrape` stay in step:
the buffer is always the join of the rendered sample lines. -/
theorem sens_foldl_eq (now : String) (m : List (Nat × String))
    (labels : String) :
    ∀ (records : List (List String)) (vals : Nat → String) (ss : List Sample),
      (records.foldl (sensStep now m labels)
        (vals, String.join (ss.map (gtsLine now)))).2 =
      String.join
        (((records.foldl (scrapeStep m labels) (vals, ss)).2).map
          (gtsLine now)) := by
  intro records
  induction records with
  | nil => intro vals ss; rfl
  | cons rec rest ih =>
    intro vals ss
    have h : String.join (ss.map (gtsLine now)) ++
        String.join
          ((emitRecord m labels (storeFields m vals rec)).map (gtsLine now)) =
        String.join
          ((ss ++ emitRecord m labels (storeFields m vals rec)).map
            (gtsLine now)) := by
      rw [List.map_append, join_append]
    simp only [List.foldl_cons, sensStep, scrapeStep]
    rw [h]
    exact ih (storeFields m vals rec)
      (ss ++ emitRecord m labels (storeFields m vals rec))

/-- The sensision buffer of a scrape is the join of its sample lines. -/
theorem scrapeSensision_eq (now : String) (m : List (Nat × String))
    (labels : String) (records : List (List String)) :
    scrapeSensision now m labels records =
      String.join ((scrapeSamples m labels records).map (gtsLine now)) := by
  have h := sens_foldl_eq now m labels records initVals []
  simpa [scrapeSensision, scrapeSamples] using h

/-! The claim theorems. -/

/-- Supporting fact about the current (yacr) emission loop: when the status
column 17 is configured and its stored field is non-empty, a sample is
emitted for it whose value is "1" exactly when the status string is one of
"UP", "UP 1/3", "UP 2/3", "OPEN", "no check", and "0" for every other
non-empty status string. -/
theorem c1_status_recode (m : List (Nat × String)) (labels : String)
    (vals : Nat → String) (nm : String)
    (hm : (17, nm) ∈ m) (hne : vals 17 ≠ "") :
    ∃ s ∈ emitRecord m labels vals, s.name = nm ∧
      s.value =
        if vals 17 = "UP" ∨ vals 17 = "UP 1/3" ∨ vals 17 = "UP 2/3" ∨
            vals 17 = "OPEN" ∨ vals 17 = "no check"
        then "1" else "0" := by
  refine ⟨{ name := nm, labels := labels, pxname := vals 0, svname := vals 1,
            typ := typeLabel (vals 32), value := statusValue (vals 17) },
          ?_, rfl, ?_⟩
  · exact List.mem_filterMap.mpr ⟨(17, nm), hm, by simp [emitField, hne]⟩
  · by_cases h : vals 17 = "UP" ∨ vals 17 = "UP 1/3" ∨ vals 17 = "UP 2/3" ∨
        vals 17 = "OPEN" ∨ vals 17 = "no check"
    · simp [statusValue, h]
    · simp [statusValue, h]

/-- Instance of the preceding fact: a concrete record state with status
"DOWN" yields the status sample with value "0". -/
theorem c1_status_recode_witness :
    ∃ s ∈ emitRecord defaultMetrics ""
        (fun j => if j = 17 then "DOWN" else ""),
      s.name = "status" ∧
      s.value =
        if (fun j : Nat => if j = 17 then "DOWN" else "") 17 = "UP" ∨
            (fun j : Nat => if j = 17 then "DOWN" else "") 17 = "UP 1/3" ∨
            (fun j : Nat => if j = 17 then "DOWN" else "") 17 = "UP 2/3" ∨
            (fun j : Nat => if j = 17 then "DOWN" else "") 17 = "OPEN" ∨
            (fun j : Nat => if j = 17 then "DOWN" else "") 17 = "no check"
        then "1" else "0" :=
  c1_status_recode defaultMetrics "" _ "status" (by decide) (by decide)

/-- C1 (code-bug record): in the cited csv-variant `exportCsvFields`, the
unconditional `value = 0` after the status switch makes a 52-field row
whose status field (index 17) is "UP" set the status gauge to 0, while the
status recoding of the current mapper — and the csv variant's own metric
help string "(1 = UP, 0 = DOWN)" — give 1. -/
theorem c1_status_up_zero :
    (Prom.scrapeRow [(17, "status")]
        (List.replicate 17 "" ++ ["UP"] ++ List.replicate 34 "")).1 =
      [⟨"status", ["", "", ""], 0⟩] ∧
    statusValue "UP" = "1" := by
  decide

/-- C2 (as amended): in the current (yacr) mapper, every sample emitted for
a row takes its type label from column 32 through the object-type switch,
which maps "0", "1", "2", "3" exactly to "frontend", "backend", "server",
"listen" and every other value to the empty label.  (The cited csv
snapshot instead passes the raw object-type field as the label; see the
counterexample below.) -/
theorem c2_type_label (m : List (Nat × String)) (labels : String)
    (vals : Nat → String) :
    (∀ s ∈ emitRecord m labels vals, s.typ = typeLabel (vals 32)) ∧
    typeLabel "0" = "frontend" ∧ typeLabel "1" = "backend" ∧
    typeLabel "2" = "server" ∧ typeLabel "3" = "listen" ∧
    ∀ v : String, v ≠ "0" → v ≠ "1" → v ≠ "2" → v ≠ "3" →
      typeLabel v = "" := by
  refine ⟨?_, by decide, by decide, by decide, by decide, ?_⟩
  · intro s hs
    exact (emitRecord_labels m labels vals s hs).2.2
  · intro v h0 h1 h2 h3
    simp [typeLabel, h0, h1, h2, h3]

/-- Witness for C2 at a concrete state whose column 32 holds "2". -/
theorem c2_type_label_witness :
    (∀ s ∈ emitRecord defaultMetrics "dc=gra,"
        (fun j => if j = 32 then "2" else "x"),
      s.typ = typeLabel ((fun j : Nat => if j = 32 then "2" else "x") 32)) ∧
    typeLabel "0" = "frontend" ∧ typeLabel "1" = "backend" ∧
    typeLabel "2" = "server" ∧ typeLabel "3" = "listen" ∧
    ∀ v : String, v ≠ "0" → v ≠ "1" → v ≠ "2" → v ≠ "3" →
      typeLabel v = "" :=
  c2_type_label defaultMetrics "dc=gra," (fun j => if j = 32 then "2" else "x")

/-- Counterexample for C2 as stated: the cited csv-variant `Scrape` passes
the raw object-type field as the type label value, so a 52-field row whose
column 32 is "0" sets its gauge with type label "0", not the "frontend"
the object-type recode would give. -/
theorem c2_raw_type_counterexample :
    (Prom.scrapeRow [(2, "qcur")]
        (["web", "FRONTEND", "3"] ++ List.replicate 29 "" ++ ["0"] ++
          List.replicate 19 "")).1 =
      [⟨"qcur", ["web", "FRONTEND", "0"], 3⟩] ∧
    ("0" : String) ≠ "frontend" ∧ typeLabel "0" = "frontend" := by
  decide

/-- C7: the sample triples of a scrape are a function of the record list
and the exporter configuration alone: runs over the same report at two
different scrape timestamps render buffers that decompose over one and the
same sample list (hence identical sample multisets). -/
theorem c7_deterministic (m : List (Nat × String)) (labels : String)
    (records : List (List String)) (now1 now2 : String) :
    ∃ samples : List Sample,
      samples = scrapeSamples m labels records ∧
      scrapeSensision now1 m labels records =
        String.join (samples.map (gtsLine now1)) ∧
      scrapeSensision now2 m labels records =
        String.join (samples.map (gtsLine now2)) :=
  ⟨scrapeSamples m labels records, rfl,
    scrapeSensision_eq now1 m labels records,
    scrapeSensision_eq now2 m labels records⟩

/-- C4: a fetch error makes `Scrape` publish the cleared (empty) buffer —
whatever was published before — and report failure, so a subsequent
`Metrics()` renders empty rather than the previous scrape's output. -/
theorem c4_fetch_error_clears (now : String) (m : List (Nat × String))
    (labels : String) (prev : String) :
    scrapeExporter now m labels none prev = ("", false) ∧
    metricsOf (scrapeExporter now m labels none prev).1 = "" :=
  ⟨rfl, rfl⟩

/-- C5 (divergence record): `NewExporter` dispatches the file scheme to the
HTTP fetcher, not to the local-file open the spec prescribes, so file URIs
are fetched through `http.Client.Get`. -/
theorem c5_file_scheme_dispatch :
    fetchKindOfScheme "file" = some FetchKind.httpGet ∧
    fetchKindOfScheme "file" ≠ some specFileFetchKind := by
  decide

/-- C6: every Beamer tick takes exactly one of two transitions — with a
free slot the attempted counter increments and the cursor advances
cyclically over the `n` exporters, with no free slot the skipped counter
increments and the cursor stays — and no counter ever decreases under a
tick or a scrape completion. -/
theorem c6_tick_dichotomy (mc n : Nat) (st : BeamerState) :
    (st.inFlight < mc →
      (beamerTick mc n st).attempted = st.attempted + 1 ∧
      (beamerTick mc n st).skipped = st.skipped ∧
      (beamerTick mc n st).failed = st.failed ∧
      (st.cursor < n → (beamerTick mc n st).cursor = (st.cursor + 1) % n)) ∧
    (¬ st.inFlight < mc →
      (beamerTick mc n st).skipped = st.skipped + 1 ∧
      (beamerTick mc n st).attempted = st.attempted ∧
      (beamerTick mc n st).failed = st.failed ∧
      (beamerTick mc n st).cursor = st.cursor) ∧
    (st.attempted ≤ (beamerTick mc n st).attempted ∧
     st.skipped ≤ (beamerTick mc n st).skipped ∧
     st.failed ≤ (beamerTick mc n st).failed) ∧
    (∀ b : Bool,
      st.attempted ≤ (beamerComplete b st).attempted ∧
      st.skipped ≤ (beamerComplete b st).skipped ∧
      st.failed ≤ (beamerComplete b st).failed) := by
  refine ⟨?_, ?_, ?_, ?_⟩
  · intro h
    refine ⟨by simp [beamerTick, h], by simp [beamerTick, h],
      by simp [beamerTick, h], ?_⟩
    intro hcur
    simp only [beamerTick, if_pos h]
    rcases Nat.lt_or_ge (st.cursor + 1) n with hlt | hge
    · rw [if_neg (by omega), Nat.mod_eq_of_lt hlt]
    · have hn : st.cursor + 1 = n := by omega
      rw [if_pos hge, hn, Nat.mod_self]
  · intro h
    exact ⟨by simp [beamerTick, h], by simp [beamerTick, h],
      by simp [beamerTick, h], by simp [beamerTick, h]⟩
  · by_cases h : st.inFlight < mc
    · exact ⟨by simp [beamerTick, h], by simp [beamerTick, h],
        by simp [beamerTick, h]⟩
    · exact ⟨by simp [beamerTick, h], by simp [beamerTick, h],
        by simp [beamerTick, h]⟩
  · intro b
    cases b
    · exact ⟨Nat.le_refl _, Nat.le_refl _, by simp [beamerComplete]⟩
    · exact ⟨Nat.le_refl _, Nat.le_refl _, by simp [beamerComplete]⟩

/-- Witness for C6: with ceiling 1, a free-slot tick from the initial state
attempts and advances, and a busy tick from an occupied state skips. -/
theorem c6_tick_dichotomy_witness :
    (beamerTick 1 2 ⟨0, 0, 0, 0, 0⟩).attempted = 0 + 1 ∧
    (beamerTick 1 2 ⟨0, 0, 0, 0, 0⟩).cursor = (0 + 1) % 2 ∧
    (beamerTick 1 2 ⟨1, 5, 7, 2, 1⟩).skipped = 7 + 1 :=
  ⟨((c6_tick_dichotomy 1 2 ⟨0, 0, 0, 0, 0⟩).1 (by decide)).1,
   ((c6_tick_dichotomy 1 2 ⟨0, 0, 0, 0, 0⟩).1 (by decide)).2.2.2 (by decide),
   ((c6_tick_dichotomy 1 2 ⟨1, 5, 7, 2, 1⟩).2.1 (by decide)).1⟩

/-- C8: whatever allow-list is configured, the three label columns 0, 1 and
32 keep allocated value slots, their fields overwrite those slots whenever
the record reaches them, and every emitted sample draws pxname, svname and
type from those slots — filtering only removes metric-value columns. -/
theorem c8_label_columns (ms : List String) (labels : String)
    (vals : Nat → String) (rec : List String) :
    (slotAllocated (filterMetrics ms defaultMetrics) 0 = true ∧
     slotAllocated (filterMetrics ms defaultMetrics) 1 = true ∧
     slotAllocated (filterMetrics ms defaultMetrics) 32 = true) ∧
    (∀ j, j = 0 ∨ j = 1 ∨ j = 32 → j < rec.length →
      storeFields (filterMetrics ms defaultMetrics) vals rec j =
        rec.getD j "") ∧
    (∀ s ∈ emitRecord (filterMetrics ms defaultMetrics) labels vals,
      s.pxname = vals 0 ∧ s.svname = vals 1 ∧
        s.typ = typeLabel (vals 32)) := by
  refine ⟨⟨by simp [slotAllocated], by simp [slotAllocated],
    by simp [slotAllocated]⟩, ?_, emitRecord_labels _ labels vals⟩
  intro j hj hlt
  have halloc : slotAllocated (filterMetrics ms defaultMetrics) j = true := by
    rcases hj with h | h | h <;> subst h <;> simp [slotAllocated]
  have hrow : j < rowLength := by
    rcases hj with h | h | h <;> subst h <;> decide
  simp [storeFields, hlt, hrow, halloc]

/-- Witness for C8 with the allow-list ["qcur"] and a concrete record. -/
theorem c8_label_columns_witness :
    (slotAllocated (filterMetrics ["qcur"] defaultMetrics) 0 = true ∧
     slotAllocated (filterMetrics ["qcur"] defaultMetrics) 1 = true ∧
     slotAllocated (filterMetrics ["qcur"] defaultMetrics) 32 = true) ∧
    (∀ j, j = 0 ∨ j = 1 ∨ j = 32 → j < (["web", "FRONTEND"] : List String).length →
      storeFields (filterMetrics ["qcur"] defaultMetrics) (fun _ => "")
          ["web", "FRONTEND"] j = (["web", "FRONTEND"] : List String).getD j "") ∧
    (∀ s ∈ emitRecord (filterMetrics ["qcur"] defaultMetrics) "" (fun _ => ""),
      s.pxname = (fun _ : Nat => "") 0 ∧ s.svname = (fun _ : Nat => "") 1 ∧
        s.typ = typeLabel ((fun _ : Nat => "") 32)) :=
  c8_label_columns ["qcur"] "" (fun _ => "") ["web", "FRONTEND"]

/-- C10: value slots are only overwritten by fields actually present — a
record shorter than slot index `j` leaves slot `j` holding the value from
earlier records of the same scrape, fields at column `rowLength` (62) or
beyond are never stored, and a record with at most 32 fields makes every
sample emitted for it carry the type label recoded from the stale column
32. -/
theorem c10_stale_slots (m : List (Nat × String)) (labels : String)
    (vals : Nat → String) (rec : List String) :
    (∀ j, rec.length ≤ j → storeFields m vals rec j = vals j) ∧
    (∀ j, rowLength ≤ j → storeFields m vals rec j = vals j) ∧
    (∀ j, storeFields m vals rec j =
      storeFields m vals (rec.take rowLength) j) ∧
    (rec.length ≤ 32 →
      ∀ s ∈ emitRecord m labels (storeFields m vals rec),
        s.typ = typeLabel (vals 32)) := by
  have hshort : ∀ j, rec.length ≤ j → storeFields m vals rec j = vals j := by
    intro j hj
    simp [storeFields, Nat.not_lt.mpr hj]
  refine ⟨hshort, ?_, ?_, ?_⟩
  · intro j hj
    simp [storeFields, Nat.not_lt.mpr hj]
  · intro j
    by_cases hrow : j < rowLength
    · by_cases hlen : j < rec.length
      · have htake : j < (rec.take rowLength).length := by
          simp [List.length_take]
          omega
        simp only [storeFields, hrow, hlen, htake, decide_True, Bool.true_and]
        rw [List.getD_eq_getElem?_getD, List.getD_eq_getElem?_getD,
          List.getElem?_take_of_lt hrow]
      · have htake : ¬ j < (rec.take rowLength).length := by
          simp [List.length_take]
          omega
        simp [storeFields, hlen, htake]
    · simp [storeFields, hrow]
  · intro hlen s hs
    have h32 := hshort 32 (by omega)
    have := (emitRecord_labels m labels (storeFields m vals rec) s hs).2.2
    rw [this, h32]

/-- Witness for C10: a one-field record following a state whose column 32
holds "1" emits samples typed from the stale "backend" label. -/
theorem c10_stale_slots_witness :
    (∀ j, (["web"] : List String).length ≤ j →
      storeFields [(2, "qcur")] (fun j => if j = 32 then "1" else "v")
        ["web"] j = (fun j : Nat => if j = 32 then "1" else "v") j) ∧
    (∀ j, rowLength ≤ j →
      storeFields [(2, "qcur")] (fun j => if j = 32 then "1" else "v")
        ["web"] j = (fun j : Nat => if j = 32 then "1" else "v") j) ∧
    (∀ j, storeFields [(2, "qcur")] (fun j => if j = 32 then "1" else "v")
        ["web"] j =
      storeFields [(2, "qcur")] (fun j => if j = 32 then "1" else "v")
        ((["web"] : List String).take rowLength) j) ∧
    ((["web"] : List String).length ≤ 32 →
      ∀ s ∈ emitRecord [(2, "qcur")] "l="
        (storeFields [(2, "qcur")] (fun j => if j = 32 then "1" else "v")
          ["web"]),
        s.typ = typeLabel ((fun j : Nat => if j = 32 then "1" else "v") 32)) :=
  c10_stale_slots [(2, "qcur")] "l=" (fun j => if j = 32 then "1" else "v")
    ["web"]

end HX
